import Mathlib

/-!
Verification of the stream-session reconciliation core of a Twitch EventSub
webhook service (`app/analytics.py`, `app/streamers.py`, `app/eventsub.py`,
`app/models.py`).

Modelling conventions:
* Timestamps are `Int` seconds (every datetime produced by the code is a
  timezone-aware UTC instant; the ad-hoc awareness-normalisation branches in
  the source are the identity under this model).
* MongoDB collections are Lean lists of records in insertion order; the
  unique `_id` of a session document is a `Nat` field `sid`.
* `StreamerStats` documents live behind the unique index on
  `broadcaster_id`, modelled as a function `String → Option StatsDoc`.
* Python `round(x, n)` (banker's rounding) is modelled exactly on `ℚ`;
  float representation error is abstracted away.
* Python `int(x)` on a quotient of seconds truncates toward zero, i.e.
  `Int.div`.
-/

namespace TwitchRest

/-- Python `round` to an integer: round-half-to-even (banker's rounding). -/
def roundHalfEven (q : ℚ) : ℤ :=
  let n : ℤ := ⌊q⌋
  let frac : ℚ := q - n
  if frac < 1/2 then n
  else if 1/2 < frac then n + 1
  else if n % 2 = 0 then n else n + 1

/-- Python `round(x, 2)`. -/
def pyRound2 (q : ℚ) : ℚ := (roundHalfEven (q * 100) : ℚ) / 100

/-- Python `round(x, 1)`. -/
def pyRound1 (q : ℚ) : ℚ := (roundHalfEven (q * 10) : ℚ) / 10

/-- Mongo `$max` over a list of values (`none` on an empty group). -/
def listMax : List Int → Option Int
  | [] => none
  | x :: xs => some (xs.foldl max x)

/-- Mongo `$min` over a list of values (`none` on an empty group). -/
def listMin : List Int → Option Int
  | [] => none
  | x :: xs => some (xs.foldl min x)

/-- Mongo `$avg` over the non-missing values of a group
(`none` on an empty group). -/
def listAvg (l : List Int) : Option ℚ :=
  match l with
  | [] => none
  | _ => some ((l.foldl (· + ·) 0 : Int) / (l.length : ℚ))

/-- A `stream_sessions` document (`StreamSession` in `analytics_models.py`).
Only the fields read or written by the verified operations appear; `sid`
is the Mongo `_id` (unique index). `created_at`/`updated_at` carry the
bookkeeping timestamps (`updated_at` is set on close). -/
structure Session where
  sid : Nat
  broadcaster_id : String
  broadcaster_login : String
  broadcaster_name : String
  started_at : Int
  ended_at : Option Int
  duration_minutes : Option Int
  viewer_count_samples : List (Int × Int)
  max_viewers : Option Int
  avg_viewers : Option ℚ
  updated_at : Option Int
  deriving Repr, DecidableEq

/-- A `stream_snapshots` document, restricted to the fields the analytics
pipelines match and aggregate on. -/
structure Snapshot where
  broadcaster_id : String
  broadcaster_login : String
  is_live : Bool
  viewer_count : Option Int
  captured_at : Int
  deriving Repr, DecidableEq

/-- The `streamer_stats` document written by `_update_streamer_stats`:
exactly the fields included in the `$set` (constructor-supplied fields of
`StreamerStats`, `exclude_unset=True`, `exclude={"id"}`). -/
structure StatsDoc where
  broadcaster_id : String
  broadcaster_login : String
  broadcaster_name : String
  total_streams : Int
  total_hours_streamed : ℚ
  avg_stream_duration_minutes : ℚ
  max_concurrent_viewers : Int
  avg_viewers_all_time : ℚ
  last_stream_at : Option Int
  first_seen_at : Option Int
  deriving Repr, DecidableEq

/-- The `streamer_stats` collection, keyed by its unique
`broadcaster_id` index. -/
def StatsStore := String → Option StatsDoc

/-- Payload fields of a `stream.online` / `stream.offline` EventSub event
that the handlers read (`event_data[...]`). `started_at` is only present
on online events; offline handlers never read it. -/
structure EventData where
  broadcaster_user_id : String
  broadcaster_user_login : String
  broadcaster_user_name : String
  started_at : Int
  deriving Repr, DecidableEq

/-- `AnalyticsService.start_stream_session`: build a `StreamSession` from
the event payload and insert it (no lookup of existing open sessions).
`newId` is the `_id` Mongo assigns to the inserted document. -/
def start_stream_session (newId : Nat) (e : EventData) (sessions : List Session) :
    List Session :=
  sessions ++ [{ sid := newId
                 broadcaster_id := e.broadcaster_user_id
                 broadcaster_login := e.broadcaster_user_login
                 broadcaster_name := e.broadcaster_user_name
                 started_at := e.started_at
                 ended_at := none
                 duration_minutes := none
                 viewer_count_samples := []
                 max_viewers := none
                 avg_viewers := none
                 updated_at := none }]

/-- Matching predicate of the open-session query
`{"broadcaster_id": b, "ended_at": None}`. -/
def isOpenFor (b : String) (s : Session) : Bool :=
  s.broadcaster_id == b && s.ended_at.isNone

/-- Accumulator for the head of a stable descending `started_at` sort:
keep the earlier document unless a strictly later `started_at` appears. -/
def pickLater (acc : Option Session) (s : Session) : Option Session :=
  match acc with
  | none => some s
  | some t => if s.started_at > t.started_at then some s else some t

/-- `find_one({"broadcaster_id": b, "ended_at": None}, sort=[("started_at", -1)])`:
the first document of the stable descending sort by `started_at` of the
matching documents, i.e. the earliest-inserted open session with maximal
`started_at`. -/
def findActiveSession (sessions : List Session) (b : String) : Option Session :=
  (sessions.filter (isOpenFor b)).foldl pickLater none

/-- Result triple of `_calculate_viewer_stats`:
`(max_viewers, avg_viewers, viewer_count_samples)`. -/
def ViewerStats := Option Int × Option ℚ × List (Int × Int)

/-- The `$match` stage of the windowed snapshot aggregation: same
broadcaster, captured within `[startT, endT]`, live, and carrying a
viewer count. -/
def snapshotInWindow (b : String) (startT endT : Int) (sn : Snapshot) : Bool :=
  sn.broadcaster_id == b && startT ≤ sn.captured_at && sn.captured_at ≤ endT
    && sn.is_live && !sn.viewer_count.isNone

/-- The window end used by `_calculate_viewer_stats`: the explicit
`ended_at` argument if given, else the session's stored `ended_at`
(absent on an open session), else `now`. -/
def sessionWindowEnd (session : Session) (ended_atArg : Option Int) (now : Int) : Int :=
  match ended_atArg with
  | some e => e
  | none => session.ended_at.getD now

/-- `AnalyticsService._calculate_viewer_stats`: look the session up by id,
aggregate the broadcaster's live snapshots with a non-null viewer count
captured within `[started_at, ended_at]` (the window end defaulting to the
session's `ended_at`, else `now`), and return max / 2-decimal-rounded
average / raw samples, or all-none/empty when nothing matches. -/
def calculate_viewer_stats (sessions : List Session) (snapshots : List Snapshot)
    (session_id : Nat) (ended_atArg : Option Int) (now : Int) : ViewerStats :=
  match sessions.find? (fun s => s.sid == session_id) with
  | none => (none, none, [])
  | some session =>
    let started_at := session.started_at
    let ended_at : Int := sessionWindowEnd session ended_atArg now
    let matched := snapshots.filter
      (snapshotInWindow session.broadcaster_id started_at ended_at)
    let counts := matched.filterMap (fun sn => sn.viewer_count)
    match listMax counts with
    | none => (none, none, [])
    | some mx =>
        (some mx,
         some (pyRound2 ((listAvg counts).getD 0)),
         matched.map (fun sn => (sn.captured_at, sn.viewer_count.getD 0)))

/-- `AnalyticsService._update_streamer_stats`: recompute the aggregate for
one broadcaster from all of their sessions and live snapshots and upsert
it (`$set` of every computed field, keyed by `broadcaster_id`); a
broadcaster with no session documents is left untouched. -/
def update_streamer_stats (sessions : List Session) (snapshots : List Snapshot)
    (stats : StatsStore) (b : String) : StatsStore :=
  let bs := sessions.filter (fun s => s.broadcaster_id == b)
  match bs with
  | [] => stats
  | s0 :: _ =>
    let total_streams : Int := (bs.filter (fun s => !s.ended_at.isNone)).length
    let total_minutes : Int := (bs.map (fun s => s.duration_minutes.getD 0)).foldl (· + ·) 0
    let avg_duration : Option ℚ := listAvg (bs.filterMap (fun s => s.duration_minutes))
    let last_stream : Option Int := listMax (bs.map (fun s => s.started_at))
    let first_stream : Option Int := listMin (bs.map (fun s => s.started_at))
    let snaps := snapshots.filter (fun sn =>
      sn.broadcaster_id == b && sn.is_live && !sn.viewer_count.isNone)
    let snapCounts := snaps.filterMap (fun sn => sn.viewer_count)
    let doc : StatsDoc :=
      { broadcaster_id := b
        broadcaster_login := s0.broadcaster_login
        broadcaster_name := s0.broadcaster_name
        total_streams := total_streams
        total_hours_streamed := pyRound2 ((total_minutes : ℚ) / 60)
        avg_stream_duration_minutes := pyRound2 (avg_duration.getD 0)
        max_concurrent_viewers := (listMax snapCounts).getD 0
        avg_viewers_all_time := pyRound2 ((listAvg snapCounts).getD 0)
        last_stream_at := last_stream
        first_seen_at := first_stream }
    fun b' => if b' = b then some doc else stats b'

/-- `AnalyticsService.recalculate_streamer_stats`: forced recompute; the
`try` body cannot fail in this model, so it returns `true`. -/
def recalculate_streamer_stats (sessions : List Session) (snapshots : List Snapshot)
    (stats : StatsStore) (b : String) : StatsStore × Bool :=
  (update_streamer_stats sessions snapshots stats b, true)

/-- `AnalyticsService.end_stream_session`: find the most recent open
session of the broadcaster (log-and-return if none), compute the duration
in whole minutes (`int(total_seconds/60)`, i.e. truncation), merge in the
windowed viewer statistics, `$set` the closing fields on that one
document, then recompute the broadcaster's aggregate stats. -/
def end_stream_session (sessions : List Session) (snapshots : List Snapshot)
    (stats : StatsStore) (broadcaster_id : String) (ended_atArg : Option Int)
    (now : Int) : List Session × StatsStore :=
  let ended_at := ended_atArg.getD now
  match findActiveSession sessions broadcaster_id with
  | none => (sessions, stats)
  | some session =>
    let duration_minutes : Int := Int.tdiv (ended_at - session.started_at) 60
    let vs := calculate_viewer_stats sessions snapshots session.sid (some ended_at) now
    let sessions' := sessions.map (fun s =>
      if s.sid == session.sid then
        { s with ended_at := some ended_at
                 duration_minutes := some duration_minutes
                 updated_at := some now
                 max_viewers := vs.1
                 avg_viewers := vs.2.1
                 viewer_count_samples := vs.2.2 }
      else s)
    (sessions', update_streamer_stats sessions' snapshots stats broadcaster_id)

/-- Mongo `delete_one({"_id": sid})` against the unique `_id` index:
remove the first (hence, in a well-formed collection, the only) document
with that id, reporting `deleted_count`. -/
def deleteById (sessions : List Session) (sid : Nat) : Nat × List Session :=
  if sessions.any (fun t => t.sid == sid) then
    (1, sessions.eraseP (fun t => t.sid == sid))
  else (0, sessions)

/-- Shared body of the two stuck-session sweeps: fetch the open sessions
started before `cutoff`, then delete each by `_id`, counting the
successful deletions. -/
def sweepOldActiveSessions (cutoff : Int) (sessions : List Session) :
    Nat × List Session :=
  let old := sessions.filter (fun s => s.ended_at.isNone && s.started_at < cutoff)
  old.foldl
    (fun acc s =>
      let d := deleteById acc.2 s.sid
      (acc.1 + d.1, d.2))
    (0, sessions)

/-- `AnalyticsService.end_old_active_sessions` (routine sweep): delete the
open sessions older than `max_age_hours` (default 24). -/
def end_old_active_sessions (max_age_hours : Int) (now : Int)
    (sessions : List Session) : Nat × List Session :=
  sweepOldActiveSessions (now - max_age_hours * 3600) sessions

/-- `AnalyticsService.trigger_fallback_detection` (aggressive/manual
sweep): delete the open sessions older than 2 hours. -/
def trigger_fallback_detection (now : Int) (sessions : List Session) :
    Nat × List Session :=
  sweepOldActiveSessions (now - 2 * 3600) sessions

/-- One entry of the missing-offline-event report. `session_started` keeps
the raw timestamp (the code renders it as an ISO string). -/
structure MissingEntry where
  broadcaster_login : String
  broadcaster_id : String
  session_started : Int
  hours_active : ℚ
  session_id : Nat
  deriving Repr, DecidableEq

/-- The dictionary returned by `detect_missing_offline_events`. -/
structure MissingReport where
  missing_offline_events : List MissingEntry
  valid_active_sessions : Nat
  total_active_sessions : Nat
  missing_count : Nat
  missing_percentage : ℚ
  deriving Repr, DecidableEq

/-- `AnalyticsService.detect_missing_offline_events`: cross-reference the
open sessions against the live-broadcaster set from the status storage;
report every open session whose broadcaster is not live. The operation
only runs `find` queries, so the session collection passes through
unchanged (second component). -/
def detect_missing_offline_events (live_broadcaster_ids : List String)
    (sessions : List Session) (now : Int) : MissingReport × List Session :=
  let active_sessions := sessions.filter (fun s => s.ended_at.isNone)
  let missing := active_sessions.filter
    (fun s => !live_broadcaster_ids.contains s.broadcaster_id)
  let valid := active_sessions.filter
    (fun s => live_broadcaster_ids.contains s.broadcaster_id)
  let entries := missing.map (fun s =>
    { broadcaster_login := s.broadcaster_login
      broadcaster_id := s.broadcaster_id
      session_started := s.started_at
      hours_active := pyRound1 (((now - s.started_at : Int) : ℚ) / 3600)
      session_id := s.sid })
  ({ missing_offline_events := entries
     valid_active_sessions := valid.length
     total_active_sessions := active_sessions.length
     missing_count := entries.length
     missing_percentage :=
       pyRound1 (if active_sessions.isEmpty then 0
                 else ((missing.length : ℚ) / (active_sessions.length : ℚ)) * 100) },
   sessions)

/-- A stored `StreamEvent` (`models.py`), as appended to the event log. -/
structure StreamEvent where
  eid : String
  event_type : String
  broadcaster_id : String
  broadcaster_login : String
  broadcaster_name : String
  timestamp : Int
  deriving Repr, DecidableEq

/-- A `StreamStatus` record (`models.py`), latest-wins per username. -/
structure StreamStatus where
  user_id : String
  username : String
  display_name : String
  is_live : Bool
  last_updated : Int
  last_event_type : Option String
  deriving Repr, DecidableEq

/-- The state the webhook handlers touch: the event log and status map of
the status storage, plus the analytics collections. -/
structure SysState where
  events : List StreamEvent
  statuses : String → Option StreamStatus
  sessions : List Session
  snapshots : List Snapshot
  stats : StatsStore

/-- `storage.store_stream_status`: unconditional overwrite keyed by
username. -/
def store_stream_status (statuses : String → Option StreamStatus)
    (st : StreamStatus) : String → Option StreamStatus :=
  fun u => if u = st.username then some st else statuses u

/-- CPython: the `datetime` *class* (imported via
`from datetime import datetime`) has no attribute `UTC` in any Python
version — the `UTC` alias introduced in 3.11 lives on the `datetime`
module. -/
def datetimeClassHasUTC : Bool := false

/-- Evaluating the expression `datetime.now(datetime.UTC)` from
`streamers.py`: the attribute lookup `datetime.UTC` raises
`AttributeError` before `now` is ever called. -/
def datetimeNowDatetimeUTC (now : Int) : Except String Int :=
  if datetimeClassHasUTC then Except.ok now
  else Except.error "AttributeError: type object datetime.datetime has no attribute UTC"

/-- The `try` body of `StreamerManager._handle_stream_online`, step by
step: build the `StreamEvent` (whose `timestamp` argument evaluates
`datetime.now(datetime.UTC)`), append it to the event log, overwrite the
`StreamStatus`, then open an analytics session. -/
def handle_stream_online_body (e : EventData) (newId : Nat) (now : Int)
    (uuid : String) (st : SysState) : Except String SysState := do
  let ts ← datetimeNowDatetimeUTC now
  let ev : StreamEvent :=
    { eid := uuid, event_type := "stream.online"
      broadcaster_id := e.broadcaster_user_id
      broadcaster_login := e.broadcaster_user_login
      broadcaster_name := e.broadcaster_user_name
      timestamp := ts }
  let st1 := { st with events := st.events ++ [ev] }
  let ts2 ← datetimeNowDatetimeUTC now
  let status : StreamStatus :=
    { user_id := e.broadcaster_user_id
      username := e.broadcaster_user_login
      display_name := e.broadcaster_user_name
      is_live := true
      last_updated := ts2
      last_event_type := some "stream.online" }
  let st2 := { st1 with statuses := store_stream_status st1.statuses status }
  Except.ok { st2 with sessions := start_stream_session newId e st2.sessions }

/-- `StreamerManager._handle_stream_online`: the body above under
`except Exception: log`. -/
def handle_stream_online (e : EventData) (newId : Nat) (now : Int)
    (uuid : String) (st : SysState) : SysState :=
  match handle_stream_online_body e newId now uuid st with
  | Except.ok st' => st'
  | Except.error _ => st

/-- The `try` body of `StreamerManager._handle_stream_offline`. -/
def handle_stream_offline_body (e : EventData) (now : Int) (uuid : String)
    (st : SysState) : Except String SysState := do
  let ts ← datetimeNowDatetimeUTC now
  let ev : StreamEvent :=
    { eid := uuid, event_type := "stream.offline"
      broadcaster_id := e.broadcaster_user_id
      broadcaster_login := e.broadcaster_user_login
      broadcaster_name := e.broadcaster_user_name
      timestamp := ts }
  let st1 := { st with events := st.events ++ [ev] }
  let ts2 ← datetimeNowDatetimeUTC now
  let status : StreamStatus :=
    { user_id := e.broadcaster_user_id
      username := e.broadcaster_user_login
      display_name := e.broadcaster_user_name
      is_live := false
      last_updated := ts2
      last_event_type := some "stream.offline" }
  let st2 := { st1 with statuses := store_stream_status st1.statuses status }
  let r := end_stream_session st2.sessions st2.snapshots st2.stats
    e.broadcaster_user_id none now
  Except.ok { st2 with sessions := r.1, stats := r.2 }

/-- `StreamerManager._handle_stream_offline`: the body above under
`except Exception: log`. -/
def handle_stream_offline (e : EventData) (now : Int) (uuid : String)
    (st : SysState) : SysState :=
  match handle_stream_offline_body e now uuid st with
  | Except.ok st' => st'
  | Except.error _ => st

/-- An `EventSubNotification` as consumed by `handle_event`: the
subscription's event type plus the event payload. -/
structure Notification where
  sub_type : String
  event : EventData
  deriving Repr, DecidableEq

/-- `StreamerManager.handle_event`: dispatch on the subscription type;
unhandled types are only logged. Total — no exception escapes. -/
def handle_event (n : Notification) (newId : Nat) (now : Int) (uuid : String)
    (st : SysState) : SysState :=
  if n.sub_type = "stream.online" then handle_stream_online n.event newId now uuid st
  else if n.sub_type = "stream.offline" then handle_stream_offline n.event now uuid st
  else st

/-- The `Streamer` pydantic model exactly as declared in `models.py`:
`user_id`, `username`, `display_name`, `subscription_id`, `is_active`.
(Note: `online_subscription_id` / `offline_subscription_id`, which
`streamers.py` reads and writes, are *not* declared fields.) -/
structure Streamer where
  user_id : String
  username : String
  display_name : String
  subscription_id : Option String
  is_active : Bool
  deriving Repr, DecidableEq

/-- Pydantic `BaseModel.__setattr__` for the subscription-handle
assignments performed by `streamers.py` (all of type `Optional[str]`).
Only `subscription_id` is a declared field of `Streamer`; assigning any
other of these names raises
`ValueError: "Streamer" object has no field "..."` (the model's config
does not allow extra attributes). -/
def setStreamerSubscriptionAttr (s : Streamer) (f : String) (v : Option String) :
    Except String Streamer :=
  if f = "subscription_id" then Except.ok { s with subscription_id := v }
  else Except.error ("ValueError: Streamer object has no field " ++ f)

/-- One entry of the `get_eventsub_subscriptions` listing, restricted to
the keys `_find_existing_subscription` matches on. -/
structure SubRecord where
  id : String
  type : String
  condition_broadcaster_user_id : String
  transport_callback : String
  deriving Repr, DecidableEq

/-- Python `needle in hay` on strings: `needle` occurs contiguously at
some position of `hay`. -/
def strContains (hay needle : String) : Bool :=
  (List.range (hay.data.length + 1)).any
    (fun i => (hay.data.drop i).take needle.data.length == needle.data)

/-- `StreamerManager._find_existing_subscription`: list the current
subscriptions (`listing` is the outcome of that remote call), take the
first one matching (event type, broadcaster id, callback), record its
handle on the streamer and return `true`; no match returns `false`, and
any exception in the `try` (including the pydantic `ValueError` from the
handle assignment) is caught and returns `false` with the streamer
unchanged. -/
def find_existing_subscription (listing : Except String (List SubRecord))
    (streamer : Streamer) (webhook_url : String) (event_type : String) :
    Streamer × Bool :=
  let body : Except String (Streamer × Bool) := do
    let subs ← listing
    match subs.find? (fun sub => sub.type == event_type
        && sub.condition_broadcaster_user_id == streamer.user_id
        && sub.transport_callback == webhook_url) with
    | some sub =>
        if event_type = "stream.online" then do
          let s1 ← setStreamerSubscriptionAttr streamer "online_subscription_id" (some sub.id)
          let s2 ← setStreamerSubscriptionAttr s1 "subscription_id" (some sub.id)
          Except.ok (s2, true)
        else if event_type = "stream.offline" then do
          let s1 ← setStreamerSubscriptionAttr streamer "offline_subscription_id" (some sub.id)
          Except.ok (s1, true)
        else Except.ok (streamer, true)
    | none => Except.ok (streamer, false)
  match body with
  | Except.ok r => r
  | Except.error _ => (streamer, false)

/-- `StreamerManager._create_subscriptions_for_streamer`:
`createOnline` / `createOffline` are the outcomes of the two
`create_eventsub_subscription` calls (an error carries the exception
text; a 409 conflict text contains `"409"` and `"already exists"`).
Each `try` records the new handle on success; on a conflict it falls back
to `_find_existing_subscription`; any other exception (including the
pydantic `ValueError` raised by the undeclared-field assignment) leaves
that side unsuccessful. Finally `is_active` (a declared field) is set to
the conjunction and the streamer is stored; the returned record is what
`store_streamer` persists. -/
def create_subscriptions_for_streamer (createOnline createOffline : Except String String)
    (listing : Except String (List SubRecord)) (webhook_url : String)
    (streamer : Streamer) : Streamer :=
  let onlineBody : Except String Streamer := do
    let oid ← createOnline
    let s1 ← setStreamerSubscriptionAttr streamer "online_subscription_id" (some oid)
    let s2 ← setStreamerSubscriptionAttr s1 "subscription_id" (some oid)
    Except.ok s2
  let onlineRes : Streamer × Bool :=
    match onlineBody with
    | Except.ok s => (s, true)
    | Except.error msg =>
        if strContains msg "409" && strContains msg "already exists" then
          find_existing_subscription listing streamer webhook_url "stream.online"
        else (streamer, false)
  let s1 := onlineRes.1
  let offlineBody : Except String Streamer := do
    let oid ← createOffline
    setStreamerSubscriptionAttr s1 "offline_subscription_id" (some oid)
  let offlineRes : Streamer × Bool :=
    match offlineBody with
    | Except.ok s => (s, true)
    | Except.error msg =>
        if strContains msg "409" && strContains msg "already exists" then
          find_existing_subscription listing s1 webhook_url "stream.offline"
        else (s1, false)
  { offlineRes.1 with is_active := onlineRes.2 && offlineRes.2 }

/-- Python `str.startswith` (per code point). -/
def pyStartsWith (s p : String) : Bool :=
  s.data.take p.data.length == p.data

/-- Python `s[n:]` (per code point). -/
def pyDropChars (s : String) (n : Nat) : String :=
  String.mk (s.data.drop n)

/-- A UTF-8 continuation byte. -/
def utf8IsCont (b : Nat) : Bool := 0x80 ≤ b && b ≤ 0xBF

/-- Strict UTF-8 decoding of a byte list to code points, as performed by
Python's `bytes.decode("utf-8")` (rejecting overlong forms, surrogates
and out-of-range sequences); `none` models `UnicodeDecodeError`. -/
def utf8Decode : List Nat → Option (List Char)
  | [] => some []
  | b :: rest =>
    if b < 0x80 then (utf8Decode rest).map (fun cs => Char.ofNat b :: cs)
    else if b < 0xC2 then none
    else if b ≤ 0xDF then
      match rest with
      | c1 :: r =>
        if utf8IsCont c1 then
          (utf8Decode r).map (fun cs =>
            Char.ofNat ((b - 0xC0) * 0x40 + (c1 - 0x80)) :: cs)
        else none
      | [] => none
    else if b ≤ 0xEF then
      match rest with
      | c1 :: c2 :: r =>
        if (if b = 0xE0 then decide (0xA0 ≤ c1 && c1 ≤ 0xBF)
            else if b = 0xED then decide (0x80 ≤ c1 && c1 ≤ 0x9F)
            else utf8IsCont c1) && utf8IsCont c2 then
          (utf8Decode r).map (fun cs =>
            Char.ofNat ((b - 0xE0) * 0x1000 + (c1 - 0x80) * 0x40 + (c2 - 0x80)) :: cs)
        else none
      | _ => none
    else if b ≤ 0xF4 then
      match rest with
      | c1 :: c2 :: c3 :: r =>
        if (if b = 0xF0 then decide (0x90 ≤ c1 && c1 ≤ 0xBF)
            else if b = 0xF4 then decide (0x80 ≤ c1 && c1 ≤ 0x8F)
            else utf8IsCont c1) && utf8IsCont c2 && utf8IsCont c3 then
          (utf8Decode r).map (fun cs =>
            Char.ofNat ((b - 0xF0) * 0x40000 + (c1 - 0x80) * 0x1000
              + (c2 - 0x80) * 0x40 + (c3 - 0x80)) :: cs)
        else none
      | _ => none
    else none

/-- `bytes.decode("utf-8")` producing a Python string. -/
def utf8DecodeString (body : List Nat) : Option String :=
  (utf8Decode body).map (fun cs => String.mk cs)

/-- Python `dict.get(k)` on the header map. -/
def headerGet (headers : List (String × String)) (k : String) : Option String :=
  (headers.find? (fun p => p.1 == k)).map (fun p => p.2)

/-- `app/eventsub.py::verify_signature`. The HMAC-SHA256 hex digest (the
`hmac`/`hashlib` library primitive, external to this repository) is the
parameter `hmacSha256Hex secret message`. The `try` can only fail at
`body.decode("utf-8")`, modelled by the `none` branch; every other path
is total, so the function never raises past this boundary. -/
def verify_signature (hmacSha256Hex : String → String → String)
    (headers : List (String × String)) (body : List Nat) (secret : String) : Bool :=
  let signature := (headerGet headers "Twitch-Eventsub-Message-Signature").getD ""
  if !pyStartsWith signature "sha256=" then false
  else
    let received_signature := pyDropChars signature 7
    let message_id := (headerGet headers "Twitch-Eventsub-Message-Id").getD ""
    let ts := (headerGet headers "Twitch-Eventsub-Message-Timestamp").getD ""
    match utf8DecodeString body with
    | none => false
    | some bodyStr =>
      let message := message_id ++ ts ++ bodyStr
      let expected_signature := hmacSha256Hex secret message
      received_signature == expected_signature

/-- Number of open sessions (null end time) stored for a broadcaster. -/
def openSessionCount (sessions : List Session) (b : String) : Nat :=
  (sessions.filter (isOpenFor b)).length

/-- Concrete open session used in witnesses and counterexamples. -/
def mkOpenSession (i : Nat) (b : String) (t : Int) : Session :=
  { sid := i, broadcaster_id := b, broadcaster_login := b, broadcaster_name := b
    started_at := t, ended_at := none, duration_minutes := none
    viewer_count_samples := [], max_viewers := none, avg_viewers := none
    updated_at := none }

/-- Concrete closed session used in witnesses and counterexamples. -/
def mkClosedSession (i : Nat) (b : String) (t e : Int) : Session :=
  { mkOpenSession i b t with
    ended_at := some e, duration_minutes := some (Int.tdiv (e - t) 60) }

/-- Concrete live snapshot with a viewer count, for witnesses. -/
def mkSnapshot (b : String) (v : Int) (t : Int) : Snapshot :=
  { broadcaster_id := b, broadcaster_login := b, is_live := true
    viewer_count := some v, captured_at := t }

/-- An empty `streamer_stats` collection. -/
def emptyStats : StatsStore := fun _ => none

lemma foldl_pickLater_isSome (l : List Session) (t : Session) :
    ∃ u, l.foldl pickLater (some t) = some u := by
  induction l generalizing t with
  | nil => exact ⟨t, rfl⟩
  | cons s tl ih =>
      simp only [List.foldl_cons]
      have hred : pickLater (some t) s
          = if s.started_at > t.started_at then some s else some t := rfl
      rw [hred]
      by_cases hc : s.started_at > t.started_at
      · rw [if_pos hc]; exact ih s
      · rw [if_neg hc]; exact ih t

lemma findActiveSession_eq_none (sessions : List Session) (b : String) :
    findActiveSession sessions b = none ↔ sessions.filter (isOpenFor b) = [] := by
  unfold findActiveSession
  cases h : sessions.filter (isOpenFor b) with
  | nil => simp
  | cons s tl =>
      simp only [List.foldl_cons]
      show tl.foldl pickLater (pickLater none s) = none ↔ _
      obtain ⟨u, hu⟩ := foldl_pickLater_isSome tl s
      show tl.foldl pickLater (some s) = none ↔ _
      simp [hu]

/-- C1. The claimed invariant fails on the code: `start_stream_session`
performs no lookup-before-write, so an accepted "online" event for a
broadcaster that already has an open session stores a second open
session — here broadcaster `b1`, with an open session started at 500,
receives an online event and ends up with two open sessions. -/
theorem c1_duplicate_online_creates_second_open_session :
    ¬ openSessionCount
        (start_stream_session 2 ⟨"b1", "b1", "b1", 1000⟩
          [mkOpenSession 1 "b1" 500]) "b1" ≤ 1 := by
  decide

/-- C1 (amended). Processing an accepted "online" event unconditionally
inserts a fresh open session: the number of open sessions of the event's
broadcaster always grows by exactly one, whether or not one is already
open — the at-most-one-open-session invariant is not enforced at event
processing time. -/
theorem c1_amended_online_always_inserts_open_session
    (newId : Nat) (e : EventData) (sessions : List Session) :
    openSessionCount (start_stream_session newId e sessions) e.broadcaster_user_id
      = openSessionCount sessions e.broadcaster_user_id + 1 := by
  unfold openSessionCount start_stream_session
  rw [List.filter_append, List.length_append]
  simp [isOpenFor]

/-- C10. An accepted "offline" event for a broadcaster with no open
session is a no-op: `end_stream_session` finds no active session, logs,
and returns with the session collection and the stats store unchanged;
no session is fabricated and no exception escapes (the operation is a
total function). -/
theorem c10_offline_without_open_session_is_noop
    (sessions : List Session) (snapshots : List Snapshot) (stats : StatsStore)
    (b : String) (endArg : Option Int) (now : Int)
    (h : findActiveSession sessions b = none) :
    end_stream_session sessions snapshots stats b endArg now = (sessions, stats) := by
  unfold end_stream_session
  rw [h]

/-- C10 witness: a store holding only a closed session for `b1`. -/
theorem c10_offline_without_open_session_is_noop_witness :
    findActiveSession [mkClosedSession 1 "b1" 0 600] "b1" = none
    ∧ end_stream_session [mkClosedSession 1 "b1" 0 600] [] emptyStats "b1" none 1000
        = ([mkClosedSession 1 "b1" 0 600], emptyStats) :=
  ⟨by decide,
   c10_offline_without_open_session_is_noop _ _ _ _ _ _ (by decide)⟩

lemma findActiveSession_append_single (sessions : List Session) (b : String)
    (new : Session) (hempty : sessions.filter (isOpenFor b) = [])
    (hmatch : isOpenFor b new = true) :
    findActiveSession (sessions ++ [new]) b = some new := by
  unfold findActiveSession
  rw [List.filter_append, hempty, List.nil_append]
  simp [List.filter, hmatch]
  rfl

/-- C2. For a broadcaster with no open session, an accepted "online"
event appends a single new open session starting at the event's
`started_at`; a subsequent accepted "offline" event at `endTime` closes
exactly that session, setting `ended_at = endTime` and
`duration_minutes = ⌊(endTime − started_at)/60⌋`, and leaves every other
stored session untouched. -/
theorem c2_online_then_offline_closes_that_session
    (newId : Nat) (e : EventData) (sessions : List Session)
    (snapshots : List Snapshot) (stats : StatsStore) (endTime now : Int)
    (hopen : findActiveSession sessions e.broadcaster_user_id = none)
    (hfresh : ∀ s ∈ sessions, s.sid ≠ newId)
    (hle : e.started_at ≤ endTime) :
    ∃ os cs : Session,
      start_stream_session newId e sessions = sessions ++ [os]
      ∧ os.started_at = e.started_at
      ∧ os.ended_at = none
      ∧ (end_stream_session (start_stream_session newId e sessions) snapshots stats
           e.broadcaster_user_id (some endTime) now).1 = sessions ++ [cs]
      ∧ cs.started_at = e.started_at
      ∧ cs.ended_at = some endTime
      ∧ cs.duration_minutes = some (Int.fdiv (endTime - e.started_at) 60) := by
  have hemp : sessions.filter (isOpenFor e.broadcaster_user_id) = [] :=
    (findActiveSession_eq_none sessions e.broadcaster_user_id).mp hopen
  set os : Session :=
    ⟨newId, e.broadcaster_user_id, e.broadcaster_user_login,
     e.broadcaster_user_name, e.started_at, none, none, [], none, none, none⟩
    with hos
  have hmatch : isOpenFor e.broadcaster_user_id os = true := by
    simp [isOpenFor, hos]
  have hfind : findActiveSession (sessions ++ [os]) e.broadcaster_user_id = some os :=
    findActiveSession_append_single sessions e.broadcaster_user_id os hemp hmatch
  have hstart : start_stream_session newId e sessions = sessions ++ [os] := rfl
  set vs := calculate_viewer_stats (sessions ++ [os]) snapshots os.sid
    (some endTime) now with hvs
  set cs : Session :=
    { os with
      ended_at := some endTime
      duration_minutes := some (Int.tdiv (endTime - os.started_at) 60)
      updated_at := some now
      max_viewers := vs.1
      avg_viewers := vs.2.1
      viewer_count_samples := vs.2.2 } with hcs
  have hend : (end_stream_session (sessions ++ [os]) snapshots stats
      e.broadcaster_user_id (some endTime) now).1 = sessions ++ [cs] := by
    unfold end_stream_session
    rw [hfind]
    simp only
    rw [List.map_append]
    congr 1
    · calc sessions.map _ = sessions.map id := by
            apply List.map_congr_left
            intro s hs
            have hne : (s.sid == os.sid) = false := by
              simp [hos]
              exact hfresh s hs
            simp [hne]
          _ = sessions := List.map_id sessions
    · simp
  have hdur : cs.duration_minutes
      = some (Int.fdiv (endTime - e.started_at) 60) := by
    show some (Int.tdiv (endTime - os.started_at) 60) = _
    rw [Int.fdiv_eq_tdiv (by omega) (by norm_num)]
  exact ⟨os, cs, hstart, rfl, rfl, by rw [hstart]; exact hend, rfl, rfl, hdur⟩

/-- C2 witness: broadcaster `b1` with an empty store, online at 600,
offline at 720. -/
theorem c2_online_then_offline_closes_that_session_witness :
    findActiveSession [] "b1" = none
    ∧ (∀ s ∈ ([] : List Session), s.sid ≠ 1)
    ∧ (600 : Int) ≤ 720
    ∧ ∃ os cs : Session,
        start_stream_session 1 ⟨"b1", "b1", "b1", 600⟩ [] = [] ++ [os]
        ∧ os.started_at = 600
        ∧ os.ended_at = none
        ∧ (end_stream_session (start_stream_session 1 ⟨"b1", "b1", "b1", 600⟩ [])
             [] emptyStats "b1" (some 720) 720).1 = [] ++ [cs]
        ∧ cs.started_at = 600
        ∧ cs.ended_at = some 720
        ∧ cs.duration_minutes = some (Int.fdiv (720 - 600) 60) :=
  ⟨by decide, by simp, by decide,
   c2_online_then_offline_closes_that_session 1 ⟨"b1", "b1", "b1", 600⟩ [] []
     emptyStats 720 720 (by decide) (by simp) (by decide)⟩

/-- C3. `StreamerManager.handle_event` is total (no exception reaches the
caller), and for both `stream.online` and `stream.offline` notifications
the handler's `try` body fails at the very first step — the
`datetime.now(datetime.UTC)` timestamp of the `StreamEvent` raises
`AttributeError` before any storage write — so the event log, the
`StreamStatus` map, the sessions and the stats all come out exactly as
they went in, for every notification. -/
theorem c3_handle_event_always_leaves_state_unchanged
    (n : Notification) (newId : Nat) (now : Int) (uuid : String) (st : SysState) :
    handle_event n newId now uuid st = st
    ∧ handle_stream_online_body n.event newId now uuid st
        = Except.error "AttributeError: type object datetime.datetime has no attribute UTC"
    ∧ handle_stream_offline_body n.event now uuid st
        = Except.error "AttributeError: type object datetime.datetime has no attribute UTC" := by
  refine ⟨?_, rfl, rfl⟩
  unfold handle_event handle_stream_online handle_stream_offline
  split
  · rfl
  · split
    · rfl
    · rfl

/-- C5. The windowed viewer-stats query considers exactly the session
broadcaster's live snapshots with a viewer count captured within
`[started_at, window end]` (the end defaulting to `now` for an open
session): with no matching snapshot it returns `(none, none, [])`, and
with matching snapshots it returns their maximum count, their
2-decimal-rounded average, and the raw sample list; in particular
samples 50, 120, 80 yield max 120 and average 83.33. -/
theorem c5_windowed_viewer_stats
    (sessions : List Session) (snapshots : List Snapshot) (sid : Nat)
    (endArg : Option Int) (now : Int) (session : Session)
    (hfind : sessions.find? (fun s => s.sid == sid) = some session) :
    (snapshots.filter (snapshotInWindow session.broadcaster_id session.started_at
        (sessionWindowEnd session endArg now)) = []
      → calculate_viewer_stats sessions snapshots sid endArg now = (none, none, []))
    ∧ (∀ matched, matched ≠ []
      → snapshots.filter (snapshotInWindow session.broadcaster_id session.started_at
          (sessionWindowEnd session endArg now)) = matched
      → calculate_viewer_stats sessions snapshots sid endArg now
          = (listMax (matched.filterMap (fun sn => sn.viewer_count)),
             some (pyRound2 ((listAvg (matched.filterMap (fun sn => sn.viewer_count))).getD 0)),
             matched.map (fun sn => (sn.captured_at, sn.viewer_count.getD 0))))
    ∧ calculate_viewer_stats [mkOpenSession 7 "b1" 1000]
        [mkSnapshot "b1" 50 1100, mkSnapshot "b1" 120 1200, mkSnapshot "b1" 80 1300]
        7 none 2000
        = (some 120, some ((8333 : ℚ) / 100), [(1100, 50), (1200, 120), (1300, 80)]) := by
  refine ⟨?_, ?_, ?_⟩
  · intro hnil
    unfold calculate_viewer_stats
    rw [hfind]
    simp only [hnil]
    rfl
  · intro matched hne hmatch
    unfold calculate_viewer_stats
    rw [hfind]
    simp only [hmatch]
    cases hm : matched with
    | nil => exact absurd hm hne
    | cons sn0 tl =>
        have hv : ∃ v, sn0.viewer_count = some v := by
          have hsn0 : snapshotInWindow session.broadcaster_id session.started_at
              (sessionWindowEnd session endArg now) sn0 = true := by
            have : sn0 ∈ matched := by rw [hm]; exact List.mem_cons_self sn0 tl
            have := List.mem_filter.mp (hmatch ▸ this)
            exact this.2
          unfold snapshotInWindow at hsn0
          cases hvc : sn0.viewer_count with
          | none => rw [hvc] at hsn0; simp at hsn0
          | some v => exact ⟨v, rfl⟩
        obtain ⟨v, hv⟩ := hv
        have hcounts : (sn0 :: tl).filterMap (fun sn => sn.viewer_count)
            = v :: tl.filterMap (fun sn => sn.viewer_count) := by
          simp [List.filterMap_cons, hv]
        rw [hcounts]
        rfl
  · have hfind0 : ([mkOpenSession 7 "b1" 1000]).find?
        (fun s => s.sid == 7) = some (mkOpenSession 7 "b1" 1000) := by decide
    unfold calculate_viewer_stats
    rw [hfind0]
    norm_num [mkOpenSession, mkSnapshot, snapshotInWindow, sessionWindowEnd,
      List.filter, List.filterMap, listMax, listAvg, pyRound2, roundHalfEven]

/-- C5 witness: the session is found and an empty snapshot collection
yields the all-null/empty result. -/
theorem c5_windowed_viewer_stats_witness :
    ([mkOpenSession 7 "b1" 1000]).find? (fun s => s.sid == 7)
        = some (mkOpenSession 7 "b1" 1000)
    ∧ calculate_viewer_stats [mkOpenSession 7 "b1" 1000] [] 7 none 2000
        = (none, none, []) :=
  ⟨by decide,
   (c5_windowed_viewer_stats [mkOpenSession 7 "b1" 1000] [] 7 none 2000
     (mkOpenSession 7 "b1" 1000) (by decide)).1 (by decide)⟩

/-- C6. Recomputing a broadcaster's `StreamerStats` is idempotent — a
second recompute over the same sessions and snapshots leaves the stored
document exactly as after the first — and, whenever the broadcaster has
any session history, the stored result is a full overwrite that does not
depend on whatever `StreamerStats` value was stored beforehand. -/
theorem c6_recompute_streamer_stats_idempotent
    (sessions : List Session) (snapshots : List Snapshot) (b : String) :
    (∀ stats : StatsStore,
        update_streamer_stats sessions snapshots
            (update_streamer_stats sessions snapshots stats b) b
          = update_streamer_stats sessions snapshots stats b)
    ∧ (∀ stats stats' : StatsStore,
        sessions.any (fun s => s.broadcaster_id == b) = true →
        update_streamer_stats sessions snapshots stats b b
          = update_streamer_stats sessions snapshots stats' b b) := by
  constructor
  · intro stats
    cases h : sessions.filter (fun s => s.broadcaster_id == b) with
    | nil => simp only [update_streamer_stats, h]
    | cons s0 tlf =>
        simp only [update_streamer_stats, h]
        funext b'
        by_cases hb : b' = b
        · simp [hb]
        · simp [hb]
  · intro stats stats' hany
    have hne : sessions.filter (fun s => s.broadcaster_id == b) ≠ [] := by
      intro hnil
      rw [List.filter_eq_nil_iff] at hnil
      obtain ⟨x, hx, hpx⟩ := List.any_eq_true.mp hany
      exact hnil x hx hpx
    cases h : sessions.filter (fun s => s.broadcaster_id == b) with
    | nil => exact absurd h hne
    | cons s0 tlf =>
        simp only [update_streamer_stats, h]
        simp

/-- C6 witness: one closed session for `b1`; the recomputed document does
not depend on the previously stored aggregate. -/
theorem c6_recompute_streamer_stats_idempotent_witness :
    ([mkClosedSession 1 "b1" 0 600]).any (fun s => s.broadcaster_id == "b1") = true
    ∧ update_streamer_stats [mkClosedSession 1 "b1" 0 600] [] emptyStats "b1" "b1"
        = update_streamer_stats [mkClosedSession 1 "b1" 0 600] []
            (fun _ => some ⟨"x", "x", "x", 9, 9, 9, 9, 9, none, none⟩) "b1" "b1" :=
  ⟨by decide,
   (c6_recompute_streamer_stats_idempotent [mkClosedSession 1 "b1" 0 600] [] "b1").2
     emptyStats (fun _ => some ⟨"x", "x", "x", 9, 9, 9, 9, 9, none, none⟩)
     (by decide)⟩

/-- C8. The missing-offline-event detector leaves the session collection
unchanged and reports, over the open sessions, exactly those whose
broadcaster is absent from the live set — with login, id, session start,
rounded hours active and session id — with `missing_count` their number
and `missing_percentage` their 1-decimal-rounded share of all open
sessions (0 when there are none); 5 open sessions of which 2 broadcasters
are not live give `missing_count = 2` and `missing_percentage = 40.0`. -/
theorem c8_missing_offline_detector_report
    (liveIds : List String) (sessions : List Session) (now : Int) :
    (detect_missing_offline_events liveIds sessions now).2 = sessions
    ∧ (detect_missing_offline_events liveIds sessions now).1.missing_offline_events
        = ((sessions.filter (fun s => s.ended_at.isNone)).filter
            (fun s => !liveIds.contains s.broadcaster_id)).map (fun s =>
          { broadcaster_login := s.broadcaster_login
            broadcaster_id := s.broadcaster_id
            session_started := s.started_at
            hours_active := pyRound1 (((now - s.started_at : Int) : ℚ) / 3600)
            session_id := s.sid })
    ∧ (detect_missing_offline_events liveIds sessions now).1.missing_count
        = ((sessions.filter (fun s => s.ended_at.isNone)).filter
            (fun s => !liveIds.contains s.broadcaster_id)).length
    ∧ (detect_missing_offline_events liveIds sessions now).1.total_active_sessions
        = (sessions.filter (fun s => s.ended_at.isNone)).length
    ∧ (detect_missing_offline_events liveIds sessions now).1.missing_percentage
        = pyRound1 (if (sessions.filter (fun s => s.ended_at.isNone)).isEmpty then 0
            else (((sessions.filter (fun s => s.ended_at.isNone)).filter
                (fun s => !liveIds.contains s.broadcaster_id)).length : ℚ)
              / ((sessions.filter (fun s => s.ended_at.isNone)).length : ℚ) * 100)
    ∧ (sessions.filter (fun s => s.ended_at.isNone) = []
        → (detect_missing_offline_events liveIds sessions now).1.missing_percentage = 0)
    ∧ (detect_missing_offline_events ["a", "b", "c"]
        [mkOpenSession 1 "a" 0, mkOpenSession 2 "b" 0, mkOpenSession 3 "c" 0,
         mkOpenSession 4 "d" 0, mkOpenSession 5 "e" 0] 3600).1.missing_count = 2
    ∧ (detect_missing_offline_events ["a", "b", "c"]
        [mkOpenSession 1 "a" 0, mkOpenSession 2 "b" 0, mkOpenSession 3 "c" 0,
         mkOpenSession 4 "d" 0, mkOpenSession 5 "e" 0] 3600).1.missing_percentage
        = 40 := by
  refine ⟨rfl, rfl, by simp [detect_missing_offline_events], rfl, rfl, ?_, ?_, ?_⟩
  · intro hempty
    simp [detect_missing_offline_events, hempty, pyRound1, roundHalfEven]
  · decide
  · show pyRound1 _ = 40
    have hact : List.filter (fun s => s.ended_at.isNone)
        [mkOpenSession 1 "a" 0, mkOpenSession 2 "b" 0, mkOpenSession 3 "c" 0,
         mkOpenSession 4 "d" 0, mkOpenSession 5 "e" 0]
        = [mkOpenSession 1 "a" 0, mkOpenSession 2 "b" 0, mkOpenSession 3 "c" 0,
           mkOpenSession 4 "d" 0, mkOpenSession 5 "e" 0] := by decide
    have hmiss : List.filter (fun s => !(["a", "b", "c"].contains s.broadcaster_id))
        [mkOpenSession 1 "a" 0, mkOpenSession 2 "b" 0, mkOpenSession 3 "c" 0,
         mkOpenSession 4 "d" 0, mkOpenSession 5 "e" 0]
        = [mkOpenSession 4 "d" 0, mkOpenSession 5 "e" 0] := by decide
    simp only [detect_missing_offline_events, hact, hmiss]
    norm_num [pyRound1, roundHalfEven]

/-- C8 witness: with no open session the reported percentage is 0. -/
theorem c8_missing_offline_detector_report_witness :
    List.filter (fun s => s.ended_at.isNone) [mkClosedSession 1 "a" 0 600] = []
    ∧ (detect_missing_offline_events [] [mkClosedSession 1 "a" 0 600] 0).1.missing_percentage
        = 0 :=
  ⟨by decide,
   (c8_missing_offline_detector_report [] [mkClosedSession 1 "a" 0 600] 0).2.2.2.2.2.1
     (by decide)⟩

/-- C9. The conflict-recovery path of the subscription lifecycle is
broken by the `Streamer` model: on a 409 "already exists" conflict for
both subscription types, with the listing containing matches for both,
`_find_existing_subscription` fails (assigning the undeclared
`online_subscription_id` / `offline_subscription_id` attributes raises
`ValueError`, caught and turned into `False`), so the broadcaster is
stored *inactive* with no recovered handle — contradicting the spec,
which requires it to be stored active with the recovered handles. -/
theorem c9_conflict_recovery_marks_broadcaster_inactive :
    create_subscriptions_for_streamer
        (Except.error "409 Conflict: subscription already exists")
        (Except.error "409 Conflict: subscription already exists")
        (Except.ok
          [{ id := "sub-online", type := "stream.online"
             condition_broadcaster_user_id := "u1"
             transport_callback := "https://cb/webhooks/eventsub" },
           { id := "sub-offline", type := "stream.offline"
             condition_broadcaster_user_id := "u1"
             transport_callback := "https://cb/webhooks/eventsub" }])
        "https://cb/webhooks/eventsub"
        ⟨"u1", "login1", "Login One", none, true⟩
      = ⟨"u1", "login1", "Login One", none, false⟩
    ∧ find_existing_subscription
        (Except.ok
          [{ id := "sub-online", type := "stream.online"
             condition_broadcaster_user_id := "u1"
             transport_callback := "https://cb/webhooks/eventsub" },
           { id := "sub-offline", type := "stream.offline"
             condition_broadcaster_user_id := "u1"
             transport_callback := "https://cb/webhooks/eventsub" }])
        ⟨"u1", "login1", "Login One", none, true⟩
        "https://cb/webhooks/eventsub" "stream.online"
      = (⟨"u1", "login1", "Login One", none, true⟩, false) := by
  decide

lemma eraseP_sid_eq_filter (l : List Session) (k : Nat)
    (h : (l.map Session.sid).Nodup) :
    l.eraseP (fun t => t.sid == k) = l.filter (fun t => !(t.sid == k)) := by
  induction l with
  | nil => rfl
  | cons s tl ih =>
      simp only [List.map_cons, List.nodup_cons] at h
      by_cases hs : s.sid = k
      · have hpa : (s.sid == k) = true := by simp [hs]
        rw [List.eraseP_cons, hpa, List.filter_cons]
        simp only [hpa, Bool.not_true, cond_true]
        rw [if_neg (by simp)]
        symm
        rw [List.filter_eq_self]
        intro t ht
        simp only [Bool.not_eq_true', beq_eq_false_iff_ne, ne_eq]
        intro hteq
        exact absurd (hs ▸ hteq ▸ List.mem_map_of_mem Session.sid ht) h.1
      · have hpa : (s.sid == k) = false := by simp [hs]
        rw [List.eraseP_cons, hpa, List.filter_cons]
        simp only [hpa, Bool.not_false, cond_false, if_pos]
        rw [ih h.2]

lemma sweep_foldl_spec (old : List Session) :
    ∀ (st : List Session) (c : Nat),
      (st.map Session.sid).Nodup →
      (old.map Session.sid).Nodup →
      (∀ s ∈ old, s.sid ∈ st.map Session.sid) →
      old.foldl
          (fun acc s =>
            let d := deleteById acc.2 s.sid
            (acc.1 + d.1, d.2))
          (c, st)
        = (c + old.length,
           st.filter (fun t => !((old.map Session.sid).contains t.sid))) := by
  induction old with
  | nil =>
      intro st c _ _ _
      simp
  | cons s rest ih =>
      intro st c hstN hoN hmem
      simp only [List.map_cons, List.nodup_cons] at hoN
      have hin : st.any (fun t => t.sid == s.sid) = true := by
        obtain ⟨t, ht, hts⟩ := List.mem_map.mp (hmem s (List.mem_cons_self s rest))
        exact List.any_eq_true.mpr ⟨t, ht, by simp [hts]⟩
      have hdel : deleteById st s.sid = (1, st.filter (fun t => !(t.sid == s.sid))) := by
        unfold deleteById
        rw [if_pos hin, eraseP_sid_eq_filter st s.sid hstN]
      have hst'N : ((st.filter (fun t => !(t.sid == s.sid))).map Session.sid).Nodup :=
        ((List.filter_sublist st).map Session.sid).nodup hstN
      have hmem' : ∀ r ∈ rest,
          r.sid ∈ (st.filter (fun t => !(t.sid == s.sid))).map Session.sid := by
        intro r hr
        obtain ⟨t, ht, hts⟩ := List.mem_map.mp (hmem r (List.mem_cons_of_mem s hr))
        refine List.mem_map.mpr ⟨t, List.mem_filter.mpr ⟨ht, ?_⟩, hts⟩
        simp only [Bool.not_eq_true', beq_eq_false_iff_ne, ne_eq]
        intro hteq
        have hrs : r.sid = s.sid := by rw [← hts]; exact hteq
        exact absurd (hrs ▸ List.mem_map_of_mem Session.sid hr) hoN.1
      simp only [List.foldl_cons, hdel]
      rw [ih (st.filter (fun t => !(t.sid == s.sid))) (c + 1) hst'N hoN.2 hmem']
      refine Prod.ext ?_ ?_
      · simp [List.length_cons]
        omega
      · simp only [List.filter_filter]
        apply List.filter_congr
        intro t _
        simp only [List.map_cons, List.contains_cons]
        cases htk : t.sid == s.sid <;>
          cases htr : (rest.map Session.sid).contains t.sid <;> simp [htk, htr]

lemma sweepOldActiveSessions_spec (cutoff : Int) (sessions : List Session)
    (hN : (sessions.map Session.sid).Nodup) :
    sweepOldActiveSessions cutoff sessions
      = ((sessions.filter
            (fun s => s.ended_at.isNone && s.started_at < cutoff)).length,
         sessions.filter
            (fun s => !(s.ended_at.isNone && s.started_at < cutoff))) := by
  unfold sweepOldActiveSessions
  have hoN : ((sessions.filter
      (fun s => s.ended_at.isNone && s.started_at < cutoff)).map Session.sid).Nodup :=
    ((List.filter_sublist sessions).map Session.sid).nodup hN
  have hmem : ∀ s ∈ sessions.filter
      (fun s => s.ended_at.isNone && s.started_at < cutoff),
      s.sid ∈ sessions.map Session.sid :=
    fun s hs => List.mem_map_of_mem Session.sid (List.mem_of_mem_filter hs)
  rw [sweep_foldl_spec _ sessions 0 hN hoN hmem]
  refine Prod.ext (by simp) ?_
  simp only
  apply List.filter_congr
  intro t ht
  have hiff : ((sessions.filter
        (fun s => s.ended_at.isNone && s.started_at < cutoff)).map
          Session.sid).contains t.sid
      = (t.ended_at.isNone && t.started_at < cutoff) := by
    cases hc : (t.ended_at.isNone && decide (t.started_at < cutoff)) with
    | true =>
        have : t ∈ sessions.filter
            (fun s => s.ended_at.isNone && s.started_at < cutoff) :=
          List.mem_filter.mpr ⟨ht, hc⟩
        have := List.mem_map_of_mem Session.sid this
        simp [List.elem_eq_mem, this]
    | false =>
        cases hcon : ((sessions.filter
            (fun s => s.ended_at.isNone && s.started_at < cutoff)).map
              Session.sid).contains t.sid with
        | false => rfl
        | true =>
            exfalso
            have hcon' : t.sid ∈ (sessions.filter
                (fun s => s.ended_at.isNone && s.started_at < cutoff)).map
                  Session.sid := by simpa using hcon
            obtain ⟨u, hu, hus⟩ := List.mem_map.mp hcon'
            have hut : u = t :=
              List.inj_on_of_nodup_map hN (List.mem_of_mem_filter hu) ht hus
            have := (List.mem_filter.mp hu).2
            rw [hut, hc] at this
            exact Bool.false_ne_true this
  rw [hiff]

/-- C7. With unique session ids, the routine sweep deletes exactly the
open sessions started more than `max_age_hours` (default 24) before now,
and the aggressive/manual sweep deletes exactly the open sessions older
than 2 hours, each returning the number of deleted documents; hence a
closed session survives both sweeps, and an open session exactly 3 hours
old is deleted by the aggressive sweep but kept by the routine sweep with
the 24-hour default. -/
theorem c7_stuck_session_sweeps
    (max_age_hours now : Int) (sessions : List Session)
    (hN : (sessions.map Session.sid).Nodup) :
    end_old_active_sessions max_age_hours now sessions
      = ((sessions.filter (fun s => s.ended_at.isNone
            && s.started_at < now - max_age_hours * 3600)).length,
         sessions.filter (fun s => !(s.ended_at.isNone
            && s.started_at < now - max_age_hours * 3600)))
    ∧ trigger_fallback_detection now sessions
      = ((sessions.filter (fun s => s.ended_at.isNone
            && s.started_at < now - 2 * 3600)).length,
         sessions.filter (fun s => !(s.ended_at.isNone
            && s.started_at < now - 2 * 3600)))
    ∧ (∀ s ∈ sessions, s.ended_at ≠ none →
         s ∈ (end_old_active_sessions max_age_hours now sessions).2
         ∧ s ∈ (trigger_fallback_detection now sessions).2)
    ∧ (∀ s ∈ sessions, s.ended_at = none → s.started_at = now - 3 * 3600 →
         s ∉ (trigger_fallback_detection now sessions).2
         ∧ s ∈ (end_old_active_sessions 24 now sessions).2) := by
  have hroutine := sweepOldActiveSessions_spec (now - max_age_hours * 3600) sessions hN
  have hroutine24 := sweepOldActiveSessions_spec (now - 24 * 3600) sessions hN
  have haggr := sweepOldActiveSessions_spec (now - 2 * 3600) sessions hN
  refine ⟨hroutine, haggr, ?_, ?_⟩
  · intro s hs hclosed
    have hnone : s.ended_at.isNone = false := by
      cases h : s.ended_at with
      | none => exact absurd h hclosed
      | some v => rfl
    constructor
    · show s ∈ (end_old_active_sessions max_age_hours now sessions).2
      unfold end_old_active_sessions
      rw [hroutine]
      exact List.mem_filter.mpr ⟨hs, by simp [hnone]⟩
    · show s ∈ (trigger_fallback_detection now sessions).2
      unfold trigger_fallback_detection
      rw [haggr]
      exact List.mem_filter.mpr ⟨hs, by simp [hnone]⟩
  · intro s hs hopen hage
    constructor
    · intro hmem
      unfold trigger_fallback_detection at hmem
      rw [haggr] at hmem
      have := (List.mem_filter.mp hmem).2
      simp [hopen, hage] at this
    · show s ∈ (end_old_active_sessions 24 now sessions).2
      unfold end_old_active_sessions
      rw [hroutine24]
      refine List.mem_filter.mpr ⟨hs, ?_⟩
      simp [hopen, hage]

/-- C7 witness: a closed session, an open session exactly 3 hours old and
an open session 100000 seconds old, at `now = 100000`. -/
theorem c7_stuck_session_sweeps_witness :
    (([mkClosedSession 1 "a" 0 600, mkOpenSession 2 "b" (100000 - 3 * 3600),
       mkOpenSession 3 "c" 0]).map Session.sid).Nodup
    ∧ end_old_active_sessions 24 100000
        [mkClosedSession 1 "a" 0 600, mkOpenSession 2 "b" (100000 - 3 * 3600),
         mkOpenSession 3 "c" 0]
      = (1, [mkClosedSession 1 "a" 0 600, mkOpenSession 2 "b" (100000 - 3 * 3600)])
    ∧ trigger_fallback_detection 100000
        [mkClosedSession 1 "a" 0 600, mkOpenSession 2 "b" (100000 - 3 * 3600),
         mkOpenSession 3 "c" 0]
      = (2, [mkClosedSession 1 "a" 0 600]) :=
  ⟨by decide,
   Eq.trans
     (c7_stuck_session_sweeps 24 100000
       [mkClosedSession 1 "a" 0 600, mkOpenSession 2 "b" (100000 - 3 * 3600),
        mkOpenSession 3 "c" 0] (by decide)).1
     (by decide),
   Eq.trans
     ((c7_stuck_session_sweeps 24 100000
       [mkClosedSession 1 "a" 0 600, mkOpenSession 2 "b" (100000 - 3 * 3600),
        mkOpenSession 3 "c" 0] (by decide)).2).1
     (by decide)⟩

lemma verify_signature_eq_of_decode (hmacSha256Hex : String → String → String)
    (headers : List (String × String)) (body : List Nat) (secret : String)
    (bodyStr : String) (hdec : utf8DecodeString body = some bodyStr) :
    verify_signature hmacSha256Hex headers body secret
      = (pyStartsWith ((headerGet headers "Twitch-Eventsub-Message-Signature").getD "")
            "sha256="
         && (pyDropChars
              ((headerGet headers "Twitch-Eventsub-Message-Signature").getD "") 7
            == hmacSha256Hex secret
                (((headerGet headers "Twitch-Eventsub-Message-Id").getD "")
                  ++ ((headerGet headers "Twitch-Eventsub-Message-Timestamp").getD "")
                  ++ bodyStr))) := by
  unfold verify_signature
  by_cases hps : pyStartsWith
      ((headerGet headers "Twitch-Eventsub-Message-Signature").getD "") "sha256=" = true
  · simp only [hps, Bool.not_true, Bool.false_eq_true, if_false, hdec, Bool.true_and]
  · have hps' : pyStartsWith
        ((headerGet headers "Twitch-Eventsub-Message-Signature").getD "") "sha256="
        = false := by
      cases h : pyStartsWith
          ((headerGet headers "Twitch-Eventsub-Message-Signature").getD "") "sha256="
      · rfl
      · exact absurd h hps
    simp only [hps', Bool.not_false, if_true, Bool.false_and]

lemma verify_signature_false_of_decode_fail (hmacSha256Hex : String → String → String)
    (headers : List (String × String)) (body : List Nat) (secret : String)
    (hdec : utf8DecodeString body = none) :
    verify_signature hmacSha256Hex headers body secret = false := by
  unfold verify_signature
  by_cases hps : pyStartsWith
      ((headerGet headers "Twitch-Eventsub-Message-Signature").getD "") "sha256=" = true
  · simp only [hps, Bool.not_true, Bool.false_eq_true, if_false, hdec]
  · simp only [Bool.not_eq_true] at hps
    simp only [hps, Bool.not_false, if_true]

/-- C4. `verify_signature` returns `true` exactly when the signature
header is present with the `sha256=` prefix and the part after the prefix
equals the HMAC-SHA256 hex digest (the `hmac`/`hashlib` primitive,
modelled as the parameter `hmacSha256Hex`) of
message-id ++ timestamp ++ decoded body under the secret; it returns
`false` when the signature header is absent or lacks the prefix, `false`
when the body fails UTF-8 decoding (the only fallible step of the `try`,
so nothing ever raises past this boundary), and `false` on any
alteration of body, message id or timestamp whose recomputed digest
differs from the original's — in particular on every single-byte change
that changes the MAC. -/
theorem c4_verify_signature_contract
    (hmacSha256Hex : String → String → String)
    (headers : List (String × String)) (body : List Nat) (secret : String) :
    (∀ bodyStr, utf8DecodeString body = some bodyStr →
      (verify_signature hmacSha256Hex headers body secret = true
        ↔ (pyStartsWith ((headerGet headers "Twitch-Eventsub-Message-Signature").getD "")
              "sha256=" = true
           ∧ pyDropChars
                ((headerGet headers "Twitch-Eventsub-Message-Signature").getD "") 7
              = hmacSha256Hex secret
                  (((headerGet headers "Twitch-Eventsub-Message-Id").getD "")
                    ++ ((headerGet headers "Twitch-Eventsub-Message-Timestamp").getD "")
                    ++ bodyStr))))
    ∧ (utf8DecodeString body = none →
        verify_signature hmacSha256Hex headers body secret = false)
    ∧ (headerGet headers "Twitch-Eventsub-Message-Signature" = none →
        verify_signature hmacSha256Hex headers body secret = false)
    ∧ (∀ sig, headerGet headers "Twitch-Eventsub-Message-Signature" = some sig →
        pyStartsWith sig "sha256=" = false →
        verify_signature hmacSha256Hex headers body secret = false)
    ∧ (∀ (headers' : List (String × String)) (body' : List Nat)
          (bodyStr bodyStr' : String),
        utf8DecodeString body = some bodyStr →
        utf8DecodeString body' = some bodyStr' →
        (headerGet headers' "Twitch-Eventsub-Message-Signature").getD ""
          = (headerGet headers "Twitch-Eventsub-Message-Signature").getD "" →
        hmacSha256Hex secret
            (((headerGet headers' "Twitch-Eventsub-Message-Id").getD "")
              ++ ((headerGet headers' "Twitch-Eventsub-Message-Timestamp").getD "")
              ++ bodyStr')
          ≠ hmacSha256Hex secret
            (((headerGet headers "Twitch-Eventsub-Message-Id").getD "")
              ++ ((headerGet headers "Twitch-Eventsub-Message-Timestamp").getD "")
              ++ bodyStr) →
        verify_signature hmacSha256Hex headers body secret = true →
        verify_signature hmacSha256Hex headers' body' secret = false) := by
  refine ⟨?_, ?_, ?_, ?_, ?_⟩
  · intro bodyStr hdec
    rw [verify_signature_eq_of_decode hmacSha256Hex headers body secret bodyStr hdec]
    simp [Bool.and_eq_true, beq_iff_eq]
  · exact verify_signature_false_of_decode_fail hmacSha256Hex headers body secret
  · intro hnone
    unfold verify_signature
    rw [hnone]
    simp only [Option.getD_none]
    rw [if_pos]
    simp only [Bool.not_eq_eq_eq_not, Bool.not_true]
    decide
  · intro sig hsig hps
    unfold verify_signature
    rw [hsig]
    simp only [Option.getD_some]
    rw [if_pos]
    simp [hps]
  · intro headers' body' bodyStr bodyStr' hdec hdec' hsig hne hv
    rw [verify_signature_eq_of_decode hmacSha256Hex headers body secret bodyStr hdec]
      at hv
    rw [verify_signature_eq_of_decode hmacSha256Hex headers' body' secret bodyStr' hdec']
    rw [hsig]
    rcases Bool.and_eq_true_iff.mp hv with ⟨hp, hr⟩
    rw [hp, Bool.true_and]
    rw [beq_iff_eq] at hr
    rw [hr]
    cases hbe : (hmacSha256Hex secret
        (((headerGet headers "Twitch-Eventsub-Message-Id").getD "")
          ++ ((headerGet headers "Twitch-Eventsub-Message-Timestamp").getD "")
          ++ bodyStr)
        == hmacSha256Hex secret
        (((headerGet headers' "Twitch-Eventsub-Message-Id").getD "")
          ++ ((headerGet headers' "Twitch-Eventsub-Message-Timestamp").getD "")
          ++ bodyStr'))
    · rfl
    · exact absurd (beq_iff_eq.mp hbe).symm hne

/-- C4 witness: a matching body/secret/headers combination verifies
`true`, and flipping one body byte (`"hi"` to `"hj"`) makes it verify
`false`, for a concrete injective-on-these-inputs digest function. -/
theorem c4_verify_signature_contract_witness :
    utf8DecodeString [104, 105] = some "hi"
    ∧ verify_signature (fun s m => s ++ ":" ++ m)
        [("Twitch-Eventsub-Message-Id", "mid"),
         ("Twitch-Eventsub-Message-Timestamp", "ts"),
         ("Twitch-Eventsub-Message-Signature", "sha256=sec:midtshi")]
        [104, 105] "sec" = true
    ∧ verify_signature (fun s m => s ++ ":" ++ m)
        [("Twitch-Eventsub-Message-Id", "mid"),
         ("Twitch-Eventsub-Message-Timestamp", "ts"),
         ("Twitch-Eventsub-Message-Signature", "sha256=sec:midtshi")]
        [104, 106] "sec" = false := by
  refine ⟨by decide, ?_, ?_⟩
  · exact ((c4_verify_signature_contract (fun s m => s ++ ":" ++ m)
      [("Twitch-Eventsub-Message-Id", "mid"),
       ("Twitch-Eventsub-Message-Timestamp", "ts"),
       ("Twitch-Eventsub-Message-Signature", "sha256=sec:midtshi")]
      [104, 105] "sec").1 "hi" (by decide)).mpr ⟨by decide, by decide⟩
  · exact (c4_verify_signature_contract (fun s m => s ++ ":" ++ m)
      [("Twitch-Eventsub-Message-Id", "mid"),
       ("Twitch-Eventsub-Message-Timestamp", "ts"),
       ("Twitch-Eventsub-Message-Signature", "sha256=sec:midtshi")]
      [104, 105] "sec").2.2.2.2
      [("Twitch-Eventsub-Message-Id", "mid"),
       ("Twitch-Eventsub-Message-Timestamp", "ts"),
       ("Twitch-Eventsub-Message-Signature", "sha256=sec:midtshi")]
      [104, 106] "hi" "hj" (by decide) (by decide) rfl (by decide)
      (((c4_verify_signature_contract (fun s m => s ++ ":" ++ m)
        [("Twitch-Eventsub-Message-Id", "mid"),
         ("Twitch-Eventsub-Message-Timestamp", "ts"),
         ("Twitch-Eventsub-Message-Signature", "sha256=sec:midtshi")]
        [104, 105] "sec").1 "hi" (by decide)).mpr ⟨by decide, by decide⟩)

end TwitchRest
